import Mathlib

/-!
Shallow embedding of the Zena conversational-assistant backend
(repository `langgraph`), covering the parts of the code that the
verified claims are about:

* `src/zena_middleware_wrap_model.py` — `ToolSelectorMiddleware`
  (admissible-tool computation and model selection);
* `src/zena_middleware_wrap_tool.py`  — result-envelope contract and
  the postprocessor registries;
* `src/graphs/registry.py`            — `GraphRegistry.aget_or_create`;
* `src/zena_middleware_after_model.py` — `GetCRMGOOnboardStage`;
* `src/zena_middleware_before_model.py` — `TrimMessages`;
* `src/zena_state.py` / `src/zena_middleware_after_agent.py`
  — the append-or-reset reducer and the `ResetData` middleware.

Python dictionaries holding JSON-decoded values are modelled by the
`Json` inductive below; the business-data bag `data` is modelled by the
`Data` structure carrying exactly the fields the middleware reads.
Python string falsiness (`x or ""`) is modelled with `Option String`
(`none` standing for an absent key or `None`), and `str(...).strip()`
by `String.trim`.
-/

/-- JSON values as decoded by `json.loads`; `null` also stands for the
Python `None` returned by `dict.get` on a missing key (both are `None`
in the source). -/
inductive Json where
  | null
  | bool (b : Bool)
  | num (n : Int)
  | str (s : String)
  | arr (xs : List Json)
  | obj (fields : List (String × Json))

/-- Lookup of a key in a decoded JSON object, first binding wins
(models Python `dict.get(key)` returning `None` when absent). -/
def Json.lookup (fields : List (String × Json)) (key : String) : Option Json :=
  match fields with
  | [] => none
  | (k, v) :: rest => if k = key then some v else Json.lookup rest key

mutual

/-- Rendering of a decoded JSON value as Python `str(...)` would print
it (used only for the string coercion of `code` / `error` and for the
contract-violation message; no claim depends on the exact text). -/
def Json.repr : Json → String
  | .null => "None"
  | .bool true => "True"
  | .bool false => "False"
  | .num n => toString n
  | .str s => s
  | .arr xs => "[" ++ Json.reprList xs ++ "]"
  | .obj fields => "\x7b" ++ Json.reprFields fields ++ "\x7d"

/-- Comma-separated rendering of a JSON array body. -/
def Json.reprList : List Json → String
  | [] => ""
  | [x] => Json.repr x
  | x :: y :: rest => Json.repr x ++ ", " ++ Json.reprList (y :: rest)

/-- Comma-separated rendering of a JSON object body. -/
def Json.reprFields : List (String × Json) → String
  | [] => ""
  | [(k, v)] => k ++ ": " ++ Json.repr v
  | (k, v) :: f :: rest => k ++ ": " ++ Json.repr v ++ ", " ++ Json.reprFields (f :: rest)

end

/-- Onboarding record stored under `data["onboarding"]`; either field
may be absent from the dictionary. -/
structure Onboarding where
  onboarding_status : Option Bool := none
  onboarding_stage : Option Int := none
deriving DecidableEq, Repr

/-- Business-data bag `data`: the fields read by the wired middleware.
`none` models an absent key or `None`; `consent` is the truthiness
`bool(data.get("consent"))`; `user_records` is kept as a raw JSON value
(the tool-selection middleware never reads it). -/
structure Data where
  mcp_port : Option Int := none
  dialog_state : Option String := none
  office_id : Option String := none
  desired_date : Option String := none
  desired_time : Option String := none
  consent : Bool := false
  phone : Option String := none
  email : Option String := none
  first_name : Option String := none
  last_name : Option String := none
  user_records : Json := Json.null
  onboarding : Option Onboarding := none

/-- Python `str.strip()`: drop leading and trailing whitespace
(implemented over the character list so that concrete instances reduce
by evaluation). -/
def pyStrip (s : String) : String :=
  ⟨((s.data.dropWhile Char.isWhitespace).reverse.dropWhile Char.isWhitespace).reverse⟩

/-- Python `str(data.get(k) or "").strip()` for an optional string
field. -/
def strField (x : Option String) : String :=
  pyStrip (x.getD "")

namespace ToolSelectorMiddleware

/-- FSM stage order `ORDER` of `ToolSelectorMiddleware`. -/
def ORDER : List String :=
  ["new", "selecting", "remember", "available_time", "postrecord"]

/-- Globally admissible tools `GLOBAL_TOOLS` (state-neutral). -/
def GLOBAL_TOOLS : Finset String :=
  {"zena_faq", "zena_services",
   "zena_remember_office", "zena_remember_master",
   "zena_remember_desired_date", "zena_remember_desired_time"}

/-- Stage-tool dictionary `STAGE_TOOLS_CLASSIC` (a missing stage maps
to the empty set, as `dict.get(st, set())` does). -/
def STAGE_TOOLS_CLASSIC : String → Finset String
  | "new" => {"zena_product_search"}
  | "selecting" => {"zena_product_search", "zena_remember_product_id",
      "zena_remember_product_id_list"}
  | "remember" => {"zena_avaliable_time_for_master",
      "zena_available_time_for_master_list"}
  | "available_time" => {"zena_record_time", "zena_avaliable_time_for_master",
      "zena_available_time_for_master_list"}
  | "postrecord" => {"zena_recommendations"}
  | _ => ∅

/-- Hard override `POSTRECORD_OVERRIDE` at stage postrecord. -/
def POSTRECORD_OVERRIDE : Finset String := {"zena_recommendations"}

/-- Port set `CLASSIC_PORTS`. -/
def CLASSIC_PORTS : Finset Int :=
  {4001, 5001, 4002, 5002, 4005, 5005, 4006, 5006, 5021, 4021}

/-- Port set `PORTS_4007_5007`. -/
def PORTS_4007_5007 : Finset Int := {4007, 5007}

/-- Port set `PORT_5020`. -/
def PORT_5020 : Finset Int := {5020}

/-- Helper `_has_office_and_date`. -/
def hasOfficeAndDate (data : Data) : Bool :=
  !(strField data.office_id).isEmpty && !(strField data.desired_date).isEmpty

/-- Helper `_has_desired_time`. -/
def hasDesiredTime (data : Data) : Bool :=
  !(strField data.desired_time).isEmpty

/-- Helper `_has_contact_bundle`: consent plus a name (first or last)
plus phone plus email. -/
def hasContactBundle (data : Data) : Bool :=
  data.consent
    && (!(strField data.first_name).isEmpty || !(strField data.last_name).isEmpty)
    && !(strField data.phone).isEmpty
    && !(strField data.email).isEmpty

/-- Helper `_inherited_stage_tools`: union of the stage tools of every
stage up to and including the current one (an unknown stage is treated
as `new`). -/
def inheritedStageTools (dialog_state : String) : Finset String :=
  let ds := if dialog_state ∈ ORDER then dialog_state else "new"
  let idx := ORDER.indexOf ds
  (ORDER.take (idx + 1)).foldl (fun acc st => acc ∪ STAGE_TOOLS_CLASSIC st) ∅

/-- Helper `_apply_guards`: withdraws slot-search tools at
remember/available_time without office plus date, and the booking tool
at available_time without the contact bundle plus a desired time. -/
def applyGuards (dialog_state : String) (allowed : Finset String) (data : Data) :
    Finset String :=
  let allowed :=
    if dialog_state = "remember" ∨ dialog_state = "available_time" then
      if !hasOfficeAndDate data then
        (allowed.erase "zena_avaliable_time_for_master").erase
          "zena_available_time_for_master_list"
      else allowed
    else allowed
  if dialog_state = "available_time" then
    if !hasContactBundle data || !hasDesiredTime data then
      allowed.erase "zena_record_time"
    else allowed
  else allowed

/-- Classic-port branch `_allowed_for_classic_ports`. -/
def allowedForClassicPorts (dialog_state : String) (data : Data)
    (base : Finset String) : Finset String :=
  if dialog_state = "postrecord" then POSTRECORD_OVERRIDE
  else applyGuards dialog_state (base ∪ inheritedStageTools dialog_state) data

/-- Branch `_allowed_for_4007_5007` with its inline guards. -/
def allowedFor4007_5007 (dialog_state : String) (data : Data)
    (base : Finset String) : Finset String :=
  if dialog_state = "postrecord" then {"zena_recommendations"}
  else
    let allowed :=
      if dialog_state = "new" then insert "zena_record_product_id_list" base
      else if dialog_state = "remember" then
        base ∪ {"zena_remember_product_id_list", "zena_avaliable_time_for_master_list"}
      else if dialog_state = "available_time" then
        base ∪ {"zena_remember_product_id_list", "zena_avaliable_time_for_master_list",
          "zena_record_time"}
      else base
    let allowed :=
      if dialog_state = "remember" ∨ dialog_state = "available_time" then
        if !hasOfficeAndDate data then allowed.erase "zena_avaliable_time_for_master_list"
        else allowed
      else allowed
    if dialog_state = "available_time" then
      if !hasContactBundle data || !hasDesiredTime data then
        allowed.erase "zena_record_time"
      else allowed
    else allowed

/-- Branch `_allowed_for_5020` (alena). -/
def allowedFor5020 (dialog_state : String) (data : Data)
    (base : Finset String) : Finset String :=
  let phone := strField data.phone
  let onboarding := data.onboarding.getD {}
  let onboarding_stage := onboarding.onboarding_stage
  let onboarding_status := onboarding.onboarding_status
  if (onboarding_status = none ∨ onboarding_status = some true) ∧ !phone.isEmpty then
    let allowed := insert "zena_get_client_statistics" base
    if dialog_state = "new" then insert "zena_get_client_lessons" allowed
    else if dialog_state = "selecting" then insert "zena_remember_lesson_id" allowed
    else if dialog_state = "remember" then insert "zena_update_client_lesson" allowed
    else allowed
  else
    match onboarding_stage with
    | some n => if n ≥ 5 then insert "zena_update_client_info" base else base
    | none => base

/-- Dispatcher `_build_allowed_tools`. -/
def buildAllowedTools (mcp_port : Option Int) (dialog_state : String) (data : Data) :
    Finset String :=
  let base := GLOBAL_TOOLS
  match mcp_port with
  | none => base
  | some p =>
    if p ∈ PORT_5020 then allowedFor5020 dialog_state data base
    else if p ∈ PORTS_4007_5007 then allowedFor4007_5007 dialog_state data base
    else if p ∈ CLASSIC_PORTS then allowedForClassicPorts dialog_state data base
    else base

/-- Normalisation `(data.get("dialog_state") or "new").strip()` done by
`_select_relevant_tools` and `_select_model`. -/
def dialogStateOf (data : Data) : String :=
  pyStrip (match data.dialog_state with
   | none => "new"
   | some s => if s = "" then "new" else s)

/-- Filtering step of `_select_relevant_tools`: keep the tools whose
name is admissible. -/
def selectRelevantTools (data : Data) (tools : List String) : List String :=
  let allowed := buildAllowedTools data.mcp_port (dialogStateOf data) data
  tools.filter (fun t => t ∈ allowed)

/-- Chat-model bindings referenced by `_select_model`. -/
inductive ChatModel where
  | model_4o
  | model_4o_mini
deriving DecidableEq, Repr

/-- Python `mcp_port in ports` where `mcp_port` may be `None`. -/
def optPortMem (mcp_port : Option Int) (ports : Finset Int) : Bool :=
  match mcp_port with
  | none => false
  | some p => p ∈ ports

/-- Model-variant selection `_select_model`. -/
def selectModel (data : Data) : ChatModel :=
  let dialog_state := dialogStateOf data
  let inPorts (s : Finset Int) : Bool := optPortMem data.mcp_port s
  if inPorts PORTS_4007_5007 then
    if dialog_state = "new" ∨ dialog_state = "available_time" then .model_4o
    else .model_4o_mini
  else if inPorts PORT_5020 then .model_4o_mini
  else if inPorts CLASSIC_PORTS then
    if dialog_state = "new" ∨ dialog_state = "remember" ∨ dialog_state = "postrecord" then
      .model_4o
    else .model_4o_mini
  else .model_4o_mini

end ToolSelectorMiddleware

namespace WrapTool

/-- Port set `AVAILIABLE_PORT_ALENA` of the wrap-tool middleware. -/
def AVAILIABLE_PORT_ALENA : Finset Int := {15020, 5020}

/-- Port set `AVAILIABLE_PORT_DEFAULT` of the wrap-tool middleware. -/
def AVAILIABLE_PORT_DEFAULT : Finset Int :=
  {15001, 5001, 5002, 15002, 15005, 5005, 15006, 5006, 15021, 5021, 15024, 5024}

/-- Normalised tool-result envelope `Envelope` (Payload contract). -/
structure Envelope where
  success : Bool
  data : Json := Json.null
  code : Option String := none
  error : Option String := none
  raw : Json := Json.null

/-- Python type name of a decoded JSON value, as used in the
contract-violation message. -/
def pyTypeName : Json → String
  | .null => "NoneType"
  | .bool _ => "bool"
  | .num _ => "int"
  | .str _ => "str"
  | .arr _ => "list"
  | .obj _ => "dict"

/-- String coercion applied to `code` / `error`: a missing key or JSON
null stays absent, a string stays itself, anything else goes through
`str(...)`. -/
def coerceStr : Option Json → Option String
  | none => none
  | some Json.null => none
  | some (Json.str s) => some s
  | some j => some (Json.repr j)

/-- Message of the `RuntimeError` raised by `_normalize_envelope` on a
contract violation; it names the offending tool. -/
def contractViolationMsg (toolName : Option String) (parsed : Json) : String :=
  let tn := toolName.getD "<unknown_tool>"
  "MCP tool contract violation: expected Payload dict with boolean field success. tool=" ++
    (tn ++ (" parsed_type=" ++ (pyTypeName parsed ++ (" parsed=" ++ Json.repr parsed))))

/-- Check `isinstance(parsed, dict) and isinstance(parsed.get("success"), bool)`. -/
def hasBoolSuccess : Json → Bool
  | .obj fields =>
    match Json.lookup fields "success" with
    | some (Json.bool _) => true
    | _ => false
  | _ => false

/-- Embedding of `_normalize_envelope`: hard Payload contract, fail-fast
on any shape that is not a dict with a boolean `success`. -/
def normalizeEnvelope (parsed : Json) (toolName : Option String) :
    Except String Envelope :=
  match parsed with
  | Json.obj fields =>
    match Json.lookup fields "success" with
    | some (Json.bool b) =>
      .ok { success := b,
            data := (Json.lookup fields "data").getD Json.null,
            code := coerceStr (Json.lookup fields "code"),
            error := coerceStr (Json.lookup fields "error"),
            raw := parsed }
    | _ => .error (contractViolationMsg toolName parsed)
  | _ => .error (contractViolationMsg toolName parsed)

/-- Key set of the registry `TOOL_POSTPROCESSORS_DEFAULT`. -/
def TOOL_POSTPROCESSORS_DEFAULT_keys : List String :=
  ["zena_avaliable_time_for_master", "zena_record_time", "zena_recommendations",
   "zena_product_search", "zena_remember_product_id", "zena_remember_office",
   "zena_remember_master", "zena_remember_desired_date", "zena_remember_desired_time",
   "zena_records", "zena_record_delete", "zena_record_reschedule",
   "zena_call_administrator"]

/-- Key set of the registry `TOOL_POSTPROCESSORS_5007`. -/
def TOOL_POSTPROCESSORS_5007_keys : List String :=
  ["zena_available_time_for_master_list", "zena_record_time", "zena_recommendations",
   "zena_product_search", "zena_remember_product_id_list", "zena_remember_office",
   "zena_remember_master", "zena_remember_desired_date", "zena_remember_desired_time"]

/-- Key set of the registry `TOOL_POSTPROCESSORS_ALENA`. -/
def TOOL_POSTPROCESSORS_ALENA_keys : List String :=
  ["zena_get_client_lessons", "zena_remember_lesson_id",
   "zena_update_client_lesson", "zena_update_client_info"]

/-- Registry selection `_get_registry_for_request`, by the port stored
in the business-data bag. -/
def getRegistryKeysForPort (port : Option Int) : List String :=
  match port with
  | some p =>
    if p ∈ AVAILIABLE_PORT_ALENA then TOOL_POSTPROCESSORS_ALENA_keys
    else TOOL_POSTPROCESSORS_DEFAULT_keys
  | none => TOOL_POSTPROCESSORS_DEFAULT_keys

/-- Outcome of the envelope-handling portion of `awrap_tool_call`:
the normalised envelope, plus the envelope handed to the registered
postprocessor when one is registered for the tool name (`none` when no
postprocessor ran). -/
structure WrapOutcome where
  envelope : Envelope
  ppInvokedWith : Option Envelope

/-- Registry effectively in force inside `awrap_tool_call`: the
port-selected registry, overridden by the 5007 registry when the port
is exactly 5007. -/
def effectiveRegistryKeys (port : Option Int) : List String :=
  let registry := getRegistryKeysForPort port
  if port = some 5007 then TOOL_POSTPROCESSORS_5007_keys else registry

/-- Envelope-handling portion of `ToolMonitoringMiddleware.awrap_tool_call`:
parse result already JSON-decoded to `parsed`; normalise it (raising a
`RuntimeError`, modelled as `Except.error`, on a contract violation,
before any registry lookup); select the registry by port (with the 5007
special case); invoke the registered postprocessor, if any, with the
envelope. -/
def awrapToolCallEnvelope (toolName : Option String) (port : Option Int)
    (parsed : Json) : Except String WrapOutcome :=
  match normalizeEnvelope parsed toolName with
  | .error e => .error e
  | .ok env =>
    let registry := effectiveRegistryKeys port
    let invoked :=
      match toolName with
      | some tn => if tn ∈ registry then some env else none
      | none => none
    .ok { envelope := env, ppInvokedWith := invoked }

end WrapTool

namespace GraphRegistry

/-- Cache record `GraphEntry` of one graph (the per-entry asyncio lock
serialises rebuilds; in this sequential embedding it needs no
representation). -/
structure GraphEntry (G : Type) where
  graph : Option G := none
  initializedAt : Option Nat := none

/-- State of a `GraphRegistry`: the dictionary of entries, modelled as
a total map (a missing key maps to the default empty entry that
`_entry` would insert). -/
structure RegistryState (G : Type) where
  items : String → GraphEntry G

/-- Registry with no entries. -/
def RegistryState.empty (G : Type) : RegistryState G := ⟨fun _ => {}⟩

/-- Freshness test `_is_fresh`: a non-positive TTL means always fresh,
otherwise the entry must have been built within the last `ttl_s`
seconds. -/
def isFresh {G : Type} (entry : GraphEntry G) (ttl_s : Int) (now : Nat) : Bool :=
  if ttl_s ≤ 0 then true
  else match entry.initializedAt with
    | none => false
    | some t => (now : Int) - t ≤ ttl_s

/-- Result of one `aget_or_create` call: the returned graph, the
registry state afterwards, the number of factory invocations so far,
and whether this call invoked the factory. -/
structure GetResult (G : Type) where
  graph : G
  state : RegistryState G
  counter : Nat
  factoryCalled : Bool

/-- Embedding of `GraphRegistry.aget_or_create`. The factory is
modelled as a function of the process-wide invocation count, so that
distinct invocations can build observably distinct objects (object
identity). The in-lock double check re-evaluates exactly the fast-path
condition; with no interleaving it collapses onto the fast path, so the
sequential embedding evaluates the condition once, at time `now`. -/
def agetOrCreate {G : Type} (st : RegistryState G) (key : String)
    (factory : Nat → G) (ttl_s : Int) (forceReload : Bool) (now counter : Nat) :
    GetResult G :=
  let entry := st.items key
  let build : GetResult G :=
    let g := factory counter
    { graph := g,
      state := ⟨fun k => if k = key then { graph := some g, initializedAt := some now }
                 else st.items k⟩,
      counter := counter + 1,
      factoryCalled := true }
  match entry.graph with
  | some g =>
    if forceReload = false && isFresh entry ttl_s now then
      { graph := g, state := st, counter := counter, factoryCalled := false }
    else build
  | none => build

end GraphRegistry

namespace AfterModel

/-- Transcript message as seen by the after-model middleware: an
`AIMessage` carries its `tool_calls` list, every other message kind
only needs to be distinguishable from `AIMessage`. -/
inductive Msg where
  | ai (tool_calls : List Json)
  | human
  | tool
  | other

/-- Embedding of `GetCRMGOOnboardStage.aafter_model`. Returns `none`
for the Python `return None` (no state update) and `some data` for
`return {"data": data}`; the `Except.error` case models the `KeyError`
Python would raise when incrementing a missing `onboarding_stage`
key. -/
def getCRMGOOnboardStage (messages : List Msg) (data : Data) :
    Except String (Option Data) :=
  if data.mcp_port ≠ some 5020 then .ok none
  else
    match messages.getLast? with
    | none => .ok none
    | some m =>
      match m with
      | .ai tool_calls =>
        if tool_calls.isEmpty = false then .ok none
        else
          let onboarding := (data.onboarding.getD {}).onboarding_status
          if onboarding = none ∨ onboarding = some true then .ok none
          else
            let ob := data.onboarding.getD {}
            let onboarding_stage := ob.onboarding_stage.getD 0
            if onboarding_stage < 6 then
              match ob.onboarding_stage with
              | some n =>
                .ok (some { data with
                  onboarding := some { ob with onboarding_stage := some (n + 1) } })
              | none => .error "KeyError: onboarding_stage"
            else .ok (some data)
      | _ => .ok none

/-- Stage counter read back from a business-data bag, with the source
default of 0 for a missing key. -/
def stageOf (data : Data) : Int :=
  (data.onboarding.getD {}).onboarding_stage.getD 0

/-- Condition under which the middleware advances the counter: the
latest message is an `AIMessage` with an empty `tool_calls` list. -/
def lastIsAIWithoutToolCalls (messages : List Msg) : Bool :=
  match messages.getLast? with
  | some (.ai tool_calls) => tool_calls.isEmpty
  | _ => false

end AfterModel

namespace BeforeModel

/-- Transcript bound `MAX_COUNT_MASSAGES` of `TrimMessages` (source
spelling kept). -/
def MAX_COUNT_MASSAGES : Nat := 20

/-- Embedding of `TrimMessages.abefore_model`: `none` is the Python
`return None` (no change), `some kept` is the full-replace update
(remove-all then re-insert `kept`). -/
def trimMessages {α : Type} (messages : List α) : Option (List α) :=
  if messages.isEmpty then none
  else if messages.length ≤ MAX_COUNT_MASSAGES then none
  else
    let recent :=
      if messages.length % 2 = 0 then
        messages.drop (messages.length - MAX_COUNT_MASSAGES)
      else
        messages.drop (messages.length - MAX_COUNT_MASSAGES - 1)
    some (messages.take 1 ++ recent)

end BeforeModel

namespace ZenaState

/-- Update value accepted by the `add_tools_or_reset` reducer: the
`RESET` sentinel object, a list, or any single non-list value. -/
inductive ToolsUpdate (α : Type) where
  | RESET
  | single (x : α)
  | list (xs : List α)
deriving DecidableEq, Repr

/-- Embedding of the reducer `add_tools_or_reset`. -/
def add_tools_or_reset {α : Type} (current : Option (List α))
    (update : ToolsUpdate α) : List α :=
  let current := current.getD []
  match update with
  | .RESET => []
  | .single x => current ++ [x]
  | .list xs => current ++ xs

/-- Token totals shape. -/
structure Tokens where
  input_tokens : Int
  output_tokens : Int
  total_tokens : Int
deriving DecidableEq, Repr

/-- State update returned by `ResetData.aafter_agent`. -/
structure ResetUpdate where
  tools_args : ToolsUpdate Json
  tools_name : ToolsUpdate String
  tools_result : ToolsUpdate Json
  tokens : Tokens

/-- Embedding of `ResetData.aafter_agent`: it always returns the reset
sentinel for the three accumulators and zeroed token totals. -/
def ResetData_aafter_agent : ResetUpdate :=
  { tools_args := .RESET,
    tools_name := .RESET,
    tools_result := .RESET,
    tokens := { input_tokens := 0, output_tokens := 0, total_tokens := 0 } }

end ZenaState

namespace ToolSelectorMiddleware

/-- Union of every classic stage-tool set (proof helper). -/
def stageToolsClassicAll : Finset String :=
  {"zena_product_search", "zena_remember_product_id", "zena_remember_product_id_list",
   "zena_avaliable_time_for_master", "zena_available_time_for_master_list",
   "zena_record_time", "zena_recommendations"}

/-- Guards only withdraw tools, they never add any. -/
lemma applyGuards_subset (dialog_state : String) (allowed : Finset String)
    (data : Data) : applyGuards dialog_state allowed data ⊆ allowed := by
  unfold applyGuards
  split_ifs <;> intro x hx <;> simp only [Finset.mem_erase] at hx <;> tauto

/-- Membership survives the guards for any tool the guards never touch. -/
lemma mem_applyGuards (dialog_state : String) (allowed : Finset String) (data : Data)
    (x : String) (hx : x ∈ allowed)
    (h1 : x ≠ "zena_avaliable_time_for_master")
    (h2 : x ≠ "zena_available_time_for_master_list")
    (h3 : x ≠ "zena_record_time") :
    x ∈ applyGuards dialog_state allowed data := by
  unfold applyGuards
  split_ifs <;> simp [Finset.mem_erase, hx, h1, h2, h3]

/-- Inherited stage tools always come from the classic stage-tool map. -/
lemma inheritedStageTools_subset (dialog_state : String) :
    inheritedStageTools dialog_state ⊆ stageToolsClassicAll := by
  by_cases h : dialog_state ∈ ORDER
  · have hcases : dialog_state = "new" ∨ dialog_state = "selecting" ∨
        dialog_state = "remember" ∨ dialog_state = "available_time" ∨
        dialog_state = "postrecord" := by simpa [ORDER] using h
    rcases hcases with rfl | rfl | rfl | rfl | rfl <;> decide
  · unfold inheritedStageTools
    simp only [if_neg h]
    decide

/-- Global tools survive the classic branch away from postrecord. -/
lemma global_subset_classic (dialog_state : String) (data : Data)
    (hds : dialog_state ≠ "postrecord") :
    GLOBAL_TOOLS ⊆ allowedForClassicPorts dialog_state data GLOBAL_TOOLS := by
  intro x hx
  unfold allowedForClassicPorts
  rw [if_neg hds]
  refine mem_applyGuards _ _ _ _ (Finset.mem_union_left _ hx) ?_ ?_ ?_ <;>
    (rintro rfl; revert hx; decide)

/-- Global tools survive the 4007/5007 branch away from postrecord. -/
lemma global_subset_4007 (dialog_state : String) (data : Data)
    (hds : dialog_state ≠ "postrecord") :
    GLOBAL_TOOLS ⊆ allowedFor4007_5007 dialog_state data GLOBAL_TOOLS := by
  intro x hx
  unfold allowedFor4007_5007
  rw [if_neg hds]
  split_ifs <;> fin_cases hx <;> decide

/-- The 5020 branch only ever adds tools on top of the base set. -/
lemma base_subset_5020 (dialog_state : String) (data : Data) (base : Finset String) :
    base ⊆ allowedFor5020 dialog_state data base := by
  intro x hx
  unfold allowedFor5020
  rcases h : (data.onboarding.getD {}).onboarding_stage with _ | n <;>
    simp only [h] <;> split_ifs <;> simp [Finset.mem_insert, hx]

/-- Classic ports overlap neither the 5020 port nor the 4007/5007 ports. -/
lemma classic_ports_disjoint {p : Int} (hp : p ∈ CLASSIC_PORTS) :
    p ∉ PORT_5020 ∧ p ∉ PORTS_4007_5007 := by
  constructor <;> fin_cases hp <;> decide

/-- On a classic port the dispatcher lands in the classic branch. -/
lemma build_classic {p : Int} (hp : p ∈ CLASSIC_PORTS) (dialog_state : String)
    (data : Data) :
    buildAllowedTools (some p) dialog_state data =
      allowedForClassicPorts dialog_state data GLOBAL_TOOLS := by
  obtain ⟨h1, h2⟩ := classic_ports_disjoint hp
  simp [buildAllowedTools, h1, h2, hp]

end ToolSelectorMiddleware

open ToolSelectorMiddleware in
/-- C10: at marina's default port 5024 (absent from every port set of
the tool-selection middleware) the admissible set is exactly the six
global tools, at every dialog stage and for every business-data bag; in
particular no product-search, slot-search, booking, or recommendations
tool is ever admissible there. -/
theorem marina_port_only_global_tools (dialog_state : String) (data : Data) :
    buildAllowedTools (some 5024) dialog_state data = GLOBAL_TOOLS ∧
    "zena_product_search" ∉ buildAllowedTools (some 5024) dialog_state data ∧
    "zena_avaliable_time_for_master" ∉ buildAllowedTools (some 5024) dialog_state data ∧
    "zena_available_time_for_master_list" ∉ buildAllowedTools (some 5024) dialog_state data ∧
    "zena_record_time" ∉ buildAllowedTools (some 5024) dialog_state data ∧
    "zena_recommendations" ∉ buildAllowedTools (some 5024) dialog_state data := by
  have h : buildAllowedTools (some 5024) dialog_state data = GLOBAL_TOOLS := rfl
  refine ⟨h, ?_, ?_, ?_, ?_, ?_⟩ <;> rw [h] <;> decide

open ToolSelectorMiddleware in
/-- C1 (amended): outside the postrecord override (classic and
4007/5007 backends at stage postrecord), the admissible tool set always
contains the six global tools: FAQ, services, and the four remember
tools. -/
theorem global_tools_admissible_outside_postrecord (mcp_port : Option Int)
    (dialog_state : String) (data : Data)
    (h : ¬ (dialog_state = "postrecord" ∧
      (optPortMem mcp_port PORTS_4007_5007 = true ∨
       optPortMem mcp_port CLASSIC_PORTS = true))) :
    GLOBAL_TOOLS ⊆ buildAllowedTools mcp_port dialog_state data := by
  cases mcp_port with
  | none => intro x hx; simpa [buildAllowedTools] using hx
  | some p =>
    by_cases h20 : p ∈ PORT_5020
    · have hb : buildAllowedTools (some p) dialog_state data =
          allowedFor5020 dialog_state data GLOBAL_TOOLS := by
        simp [buildAllowedTools, h20]
      rw [hb]
      exact base_subset_5020 _ _ _
    · by_cases h47 : p ∈ PORTS_4007_5007
      · have hds : dialog_state ≠ "postrecord" := by
          intro hd
          exact h ⟨hd, Or.inl (by simp [optPortMem, h47])⟩
        have hb : buildAllowedTools (some p) dialog_state data =
            allowedFor4007_5007 dialog_state data GLOBAL_TOOLS := by
          simp [buildAllowedTools, h20, h47]
        rw [hb]
        exact global_subset_4007 _ _ hds
      · by_cases hc : p ∈ CLASSIC_PORTS
        · have hds : dialog_state ≠ "postrecord" := by
            intro hd
            exact h ⟨hd, Or.inr (by simp [optPortMem, hc])⟩
          rw [build_classic hc]
          exact global_subset_classic _ _ hds
        · have hb : buildAllowedTools (some p) dialog_state data = GLOBAL_TOOLS := by
            simp [buildAllowedTools, h20, h47, hc]
          rw [hb]

open ToolSelectorMiddleware in
/-- Witness for C1: concrete classic call away from postrecord. -/
theorem global_tools_admissible_outside_postrecord_witness :
    GLOBAL_TOOLS ⊆ buildAllowedTools (some 5002) "new" {} :=
  global_tools_admissible_outside_postrecord (some 5002) "new" {} (by decide)

open ToolSelectorMiddleware in
/-- Counterexample for C1 as stated: at a classic port and stage
postrecord the computed set contains neither the view-existing-bookings
tool, nor the escalate tool, nor even the FAQ tool, although the claim
requires all of them regardless of stage. -/
theorem global_tools_claim_fails_at_postrecord :
    "zena_records" ∉ buildAllowedTools (some 5002) "postrecord" {} ∧
    "zena_call_administrator" ∉ buildAllowedTools (some 5002) "postrecord" {} ∧
    "zena_faq" ∉ buildAllowedTools (some 5002) "postrecord" {} := by decide

open ToolSelectorMiddleware in
/-- C2 (amended): on a classic port the full-size model is selected
exactly at the stages new, remember and postrecord; every other stage
selects the lightweight model. -/
theorem classic_full_model_stages (data : Data) (p : Int)
    (hport : data.mcp_port = some p) (hp : p ∈ CLASSIC_PORTS) :
    (selectModel data = ChatModel.model_4o ↔
      (dialogStateOf data = "new" ∨ dialogStateOf data = "remember" ∨
       dialogStateOf data = "postrecord")) := by
  obtain ⟨h1, h2⟩ := classic_ports_disjoint hp
  have e47 : optPortMem data.mcp_port PORTS_4007_5007 = false := by
    simp [optPortMem, hport, h2]
  have e20 : optPortMem data.mcp_port PORT_5020 = false := by
    simp [optPortMem, hport, h1]
  have ec : optPortMem data.mcp_port CLASSIC_PORTS = true := by
    simp [optPortMem, hport, hp]
  unfold selectModel
  simp only [e47, e20, ec, Bool.false_eq_true, if_false, if_true]
  split_ifs with hcond
  · simp [hcond]
  · simp [hcond]

open ToolSelectorMiddleware in
/-- Witness for C2: concrete classic call at stage selecting. -/
theorem classic_full_model_stages_witness :
    (selectModel { mcp_port := some 5002, dialog_state := some "selecting" } =
        ChatModel.model_4o ↔
      (dialogStateOf { mcp_port := some 5002, dialog_state := some "selecting" } = "new" ∨
       dialogStateOf { mcp_port := some 5002, dialog_state := some "selecting" } = "remember" ∨
       dialogStateOf { mcp_port := some 5002, dialog_state := some "selecting" } = "postrecord")) :=
  classic_full_model_stages _ 5002 rfl (by decide)

open ToolSelectorMiddleware in
/-- Counterexample for C2 as stated: on a classic port at stage new
(which is not postrecord) the full-size model is selected, not the
lightweight one. -/
theorem classic_full_model_at_new :
    selectModel { mcp_port := some 5002, dialog_state := some "new" } =
      ChatModel.model_4o := by decide

open ToolSelectorMiddleware in
/-- C3 (amended): the wired tool-selection middleware never admits the
cancel-booking tool or the reschedule tool on a classic port, and its
result does not depend on the `user_records` field at all. -/
theorem classic_ignores_user_records (p : Int) (hp : p ∈ CLASSIC_PORTS)
    (dialog_state : String) (data : Data) :
    "zena_record_delete" ∉ buildAllowedTools (some p) dialog_state data ∧
    "zena_record_reschedule" ∉ buildAllowedTools (some p) dialog_state data ∧
    (∀ ur : Json, buildAllowedTools (some p) dialog_state
        { data with user_records := ur } =
      buildAllowedTools (some p) dialog_state data) := by
  refine ⟨?_, ?_, fun ur => rfl⟩ <;>
  · rw [build_classic hp]
    unfold allowedForClassicPorts
    split_ifs with hds
    · decide
    · intro hmem
      have hm2 := applyGuards_subset dialog_state _ data hmem
      rcases Finset.mem_union.mp hm2 with hg | hg
      · revert hg; decide
      · exact absurd (inheritedStageTools_subset dialog_state hg) (by decide)

open ToolSelectorMiddleware in
/-- Witness for C3: concrete classic call. -/
theorem classic_ignores_user_records_witness :
    "zena_record_delete" ∉ buildAllowedTools (some 5002) "new" {} ∧
    "zena_record_reschedule" ∉ buildAllowedTools (some 5002) "new" {} ∧
    (∀ ur : Json, buildAllowedTools (some 5002) "new" { user_records := ur } =
      buildAllowedTools (some 5002) "new" ({} : Data)) :=
  classic_ignores_user_records 5002 (by decide) "new" {}

open ToolSelectorMiddleware in
/-- Counterexample for C3 as stated: classic port, non-empty
`user_records`, no desired date — yet the cancel-booking tool is not in
the admissible set. -/
theorem cancel_tool_not_admitted_despite_user_records :
    "zena_record_delete" ∉ buildAllowedTools (some 5002) "new"
      { user_records := Json.arr [Json.str "r1"] } := by decide

open ToolSelectorMiddleware in
/-- C5: classic backend at stage available_time — a bag lacking
consent, or lacking a phone number, or lacking a chosen desired time
never admits the booking-finalize tool. -/
theorem booking_guard_available_time (p : Int) (hp : p ∈ CLASSIC_PORTS) (data : Data)
    (h : data.consent = false ∨ strField data.phone = "" ∨
      strField data.desired_time = "") :
    "zena_record_time" ∉ buildAllowedTools (some p) "available_time" data := by
  have hemp : ("" : String).isEmpty = true := rfl
  have hcond : (!hasContactBundle data || !hasDesiredTime data) = true := by
    rcases h with h | h | h
    · simp [hasContactBundle, h]
    · simp [hasContactBundle, h, hemp]
    · simp [hasDesiredTime, h, hemp]
  rw [build_classic hp]
  unfold allowedForClassicPorts
  rw [if_neg (by decide)]
  cases hod : hasOfficeAndDate data <;>
    simp [applyGuards, hod, hcond, Finset.mem_erase]

open ToolSelectorMiddleware in
/-- Witness for C5: concrete classic bag without consent. -/
theorem booking_guard_available_time_witness :
    "zena_record_time" ∉ buildAllowedTools (some 5002) "available_time"
      { consent := false } :=
  booking_guard_available_time 5002 (by decide) { consent := false } (Or.inl rfl)

/-- C4: for any tool call on any port, a raw result decoding to a
mapping with `success = true` makes the middleware hand the registered
postprocessor (when the tool has one) the envelope whose `data` is the
mapping's `data` value; a decoded result that is not a mapping with a
boolean `success` key makes the middleware raise the contract-violation
error, which names the offending tool, and no postprocessor runs. -/
theorem tool_envelope_contract (tn : String) (port : Option Int) (parsed : Json) :
    (∀ fields, parsed = Json.obj fields →
      Json.lookup fields "success" = some (Json.bool true) →
      ∃ env : WrapTool.Envelope,
        WrapTool.awrapToolCallEnvelope (some tn) port parsed =
          Except.ok { envelope := env,
                      ppInvokedWith :=
                        if tn ∈ WrapTool.effectiveRegistryKeys port then some env
                        else none } ∧
        env.success = true ∧
        env.data = (Json.lookup fields "data").getD Json.null) ∧
    (WrapTool.hasBoolSuccess parsed = false →
      WrapTool.awrapToolCallEnvelope (some tn) port parsed =
        Except.error (WrapTool.contractViolationMsg (some tn) parsed) ∧
      ∃ pre post, WrapTool.contractViolationMsg (some tn) parsed =
        pre ++ (tn ++ post)) := by
  constructor
  · rintro fields rfl hsucc
    refine ⟨{ success := true,
              data := (Json.lookup fields "data").getD Json.null,
              code := WrapTool.coerceStr (Json.lookup fields "code"),
              error := WrapTool.coerceStr (Json.lookup fields "error"),
              raw := Json.obj fields }, ?_, rfl, rfl⟩
    simp only [WrapTool.awrapToolCallEnvelope, WrapTool.normalizeEnvelope]
    rw [hsucc]
  · intro hno
    have hmsg : ∃ pre post, WrapTool.contractViolationMsg (some tn) parsed =
        pre ++ (tn ++ post) :=
      ⟨"MCP tool contract violation: expected Payload dict with boolean field success. tool=",
       " parsed_type=" ++ (WrapTool.pyTypeName parsed ++ (" parsed=" ++ Json.repr parsed)),
       rfl⟩
    refine ⟨?_, hmsg⟩
    cases parsed with
    | obj fields =>
      simp only [WrapTool.hasBoolSuccess] at hno
      simp only [WrapTool.awrapToolCallEnvelope, WrapTool.normalizeEnvelope]
      rcases hl : Json.lookup fields "success" with _ | j
      · rfl
      · cases j
        · rfl
        · rw [hl] at hno
          exact Bool.noConfusion hno
        · rfl
        · rfl
        · rfl
        · rfl
    | null => rfl
    | bool b => rfl
    | num n => rfl
    | str s => rfl
    | arr xs => rfl

/-- Concrete conforming Payload used by the C4 witness. -/
def payloadOkSample : Json :=
  Json.obj [("success", Json.bool true), ("data", Json.str "X")]

/-- Witness for C4: a conforming `success = true` Payload for a
registered tool, and a non-conforming plain-string result. -/
theorem tool_envelope_contract_witness :
    (∃ env : WrapTool.Envelope,
      WrapTool.awrapToolCallEnvelope (some "zena_records") (some 5002) payloadOkSample =
        Except.ok { envelope := env,
                    ppInvokedWith :=
                      if "zena_records" ∈ WrapTool.effectiveRegistryKeys (some 5002) then
                        some env
                      else none } ∧
      env.success = true ∧
      env.data = (Json.lookup [("success", Json.bool true), ("data", Json.str "X")]
        "data").getD Json.null) ∧
    (WrapTool.awrapToolCallEnvelope (some "zena_records") (some 5002) (Json.str "oops") =
      Except.error (WrapTool.contractViolationMsg (some "zena_records") (Json.str "oops")) ∧
    ∃ pre post, WrapTool.contractViolationMsg (some "zena_records") (Json.str "oops") =
      pre ++ ("zena_records" ++ post)) :=
  ⟨(tool_envelope_contract "zena_records" (some 5002) payloadOkSample).1
      [("success", Json.bool true), ("data", Json.str "X")] rfl rfl,
   (tool_envelope_contract "zena_records" (some 5002) (Json.str "oops")).2 rfl⟩

open GraphRegistry in
/-- C6: with `ttl_s = 0` and no forced reload, a second consecutive
`aget_or_create` on the same key is a cache hit: it returns the very
graph the first call returned, does not invoke the factory, and leaves
the registry state untouched. -/
theorem graph_cache_identity_ttl_zero {G : Type} (st : RegistryState G) (key : String)
    (factory : Nat → G) (t1 t2 c0 : Nat) :
    let r1 := agetOrCreate st key factory 0 false t1 c0
    let r2 := agetOrCreate r1.state key factory 0 false t2 r1.counter
    r2.graph = r1.graph ∧ r2.factoryCalled = false ∧ r2.counter = r1.counter ∧
      r2.state = r1.state := by
  dsimp only
  rcases hg : (st.items key).graph with _ | g
  · have hr1 : agetOrCreate st key factory 0 false t1 c0 =
        { graph := factory c0,
          state := ⟨fun k =>
            if k = key then { graph := some (factory c0), initializedAt := some t1 }
            else st.items k⟩,
          counter := c0 + 1,
          factoryCalled := true } := by
      simp [agetOrCreate, hg]
    rw [hr1]
    simp [agetOrCreate, isFresh]
  · have hr1 : agetOrCreate st key factory 0 false t1 c0 =
        { graph := g, state := st, counter := c0, factoryCalled := false } := by
      simp [agetOrCreate, hg, isFresh]
    rw [hr1]
    simp [agetOrCreate, hg, isFresh]

namespace AfterModel

/-- Stage counter observed after the middleware returned `r` (the state
update replaces `data` when `r = some d2`, otherwise `data` is kept). -/
def stageAfter (data : Data) : Option Data → Int
  | none => stageOf data
  | some d2 => stageOf d2

end AfterModel

open AfterModel in
/-- C7: starting from any stage counter at most 6, one run of the
onboarding after-model middleware never lowers the counter, raises it
by at most 1, keeps it at most 6, and raises it only when the latest
message is an assistant message with no pending tool calls, the backend
port is 5020, onboarding is known incomplete, and the counter was below
6. -/
theorem onboarding_stage_bounded (messages : List AfterModel.Msg) (data : Data)
    (ob : Onboarding) (n : Int)
    (hob : data.onboarding = some ob) (hstage : ob.onboarding_stage = some n)
    (hn : n ≤ 6) :
    ∃ r, getCRMGOOnboardStage messages data = Except.ok r ∧
      stageOf data ≤ stageAfter data r ∧
      stageAfter data r ≤ stageOf data + 1 ∧
      stageAfter data r ≤ 6 ∧
      (stageAfter data r = stageOf data + 1 →
        lastIsAIWithoutToolCalls messages = true ∧
        data.mcp_port = some 5020 ∧
        ob.onboarding_status = some false ∧
        stageOf data < 6) := by
  have hstageOf : stageOf data = n := by simp [stageOf, hob, hstage]
  have mkbase : ∀ r, stageAfter data r = stageOf data → ∀ C : Prop,
      stageOf data ≤ stageAfter data r ∧ stageAfter data r ≤ stageOf data + 1 ∧
      stageAfter data r ≤ 6 ∧ (stageAfter data r = stageOf data + 1 → C) := by
    intro r e C
    rw [e]
    exact ⟨le_rfl, by omega, by omega, fun h => absurd h (by omega)⟩
  by_cases hport : data.mcp_port = some 5020
  · rcases hlast : messages.getLast? with _ | m
    · exact ⟨none, by simp [getCRMGOOnboardStage, hport, hlast], mkbase none rfl _⟩
    · cases m with
      | ai tc =>
        by_cases htc : tc.isEmpty
        · rcases hstat : ob.onboarding_status with _ | b
          · exact ⟨none,
              by simp [getCRMGOOnboardStage, hport, hlast, htc, hob, hstat],
              mkbase none rfl _⟩
          · cases b with
            | true =>
              exact ⟨none,
                by simp [getCRMGOOnboardStage, hport, hlast, htc, hob, hstat],
                mkbase none rfl _⟩
            | false =>
              by_cases hlt : n < 6
              · refine ⟨some ({ data with onboarding := some { ob with onboarding_stage := some (n + 1) } } : Data), ?_, ?_, ?_, ?_, ?_⟩
                · simp [getCRMGOOnboardStage, hport, hlast, htc, hob, hstat, hstage, hlt]
                · rw [hstageOf]
                  show n ≤ n + 1
                  omega
                · rw [hstageOf]
                  show n + 1 ≤ n + 1
                  omega
                · show n + 1 ≤ 6
                  omega
                · intro _
                  refine ⟨?_, hport, rfl, by omega⟩
                  simp [lastIsAIWithoutToolCalls, hlast, htc]
              · refine ⟨some data, ?_, mkbase (some data) rfl _⟩
                simp [getCRMGOOnboardStage, hport, hlast, htc, hob, hstat, hstage, hlt]
        · have htc2 : tc.isEmpty = false := by
            revert htc
            cases tc.isEmpty <;> simp
          exact ⟨none, by simp [getCRMGOOnboardStage, hport, hlast, htc2],
            mkbase none rfl _⟩
      | human => exact ⟨none, by simp [getCRMGOOnboardStage, hport, hlast], mkbase none rfl _⟩
      | tool => exact ⟨none, by simp [getCRMGOOnboardStage, hport, hlast], mkbase none rfl _⟩
      | other => exact ⟨none, by simp [getCRMGOOnboardStage, hport, hlast], mkbase none rfl _⟩
  · exact ⟨none, by simp [getCRMGOOnboardStage, hport], mkbase none rfl _⟩

/-- Concrete alena-mode bag used by the C7 witness. -/
def onboardSampleData : Data :=
  { mcp_port := some 5020,
    onboarding := some { onboarding_status := some false, onboarding_stage := some 2 } }

open AfterModel in
/-- Witness for C7: concrete assistant turn with no tool calls, stage
counter 2, known-incomplete onboarding on the 5020 port. -/
theorem onboarding_stage_bounded_witness :
    ∃ r, getCRMGOOnboardStage [AfterModel.Msg.ai []] onboardSampleData = Except.ok r ∧
      stageOf onboardSampleData ≤ stageAfter onboardSampleData r ∧
      stageAfter onboardSampleData r ≤ stageOf onboardSampleData + 1 ∧
      stageAfter onboardSampleData r ≤ 6 ∧
      (stageAfter onboardSampleData r = stageOf onboardSampleData + 1 →
        lastIsAIWithoutToolCalls [AfterModel.Msg.ai []] = true ∧
        onboardSampleData.mcp_port = some 5020 ∧
        ({ onboarding_status := some false, onboarding_stage := some 2 } :
          Onboarding).onboarding_status = some false ∧
        stageOf onboardSampleData < 6) :=
  onboarding_stage_bounded [AfterModel.Msg.ai []] onboardSampleData
    { onboarding_status := some false, onboarding_stage := some 2 } 2 rfl rfl (by omega)

/-- C8: a transcript of at most 20 messages is left untouched; a longer
transcript is replaced by its first message followed by the suffix of
the most recent 20 messages when the transcript length is even, and 21
when it is odd. -/
theorem trim_messages_spec {α : Type} (messages : List α) :
    (messages.length ≤ 20 → BeforeModel.trimMessages messages = none) ∧
    (20 < messages.length →
      ∃ first rest kept, messages = first :: rest ∧
        BeforeModel.trimMessages messages = some (first :: kept) ∧
        kept <:+ messages ∧
        kept.length = (if messages.length % 2 = 0 then 20 else 21)) := by
  constructor
  · intro h
    unfold BeforeModel.trimMessages
    split_ifs with h1 h2
    · rfl
    · rfl
    · exact absurd h (by simpa [BeforeModel.MAX_COUNT_MASSAGES] using h2)
  · intro h
    rcases messages with _ | ⟨first, rest⟩
    · simp at h
    · have hlen : (first :: rest).length = rest.length + 1 := rfl
      by_cases hp : (first :: rest).length % 2 = 0
      · refine ⟨first, rest, (first :: rest).drop ((first :: rest).length - 20),
          rfl, ?_, List.drop_suffix _ _, ?_⟩
        · unfold BeforeModel.trimMessages
          rw [if_neg (by simp), if_neg (by simp only [BeforeModel.MAX_COUNT_MASSAGES]; omega),
            if_pos hp]
          rfl
        · rw [if_pos hp, List.length_drop]
          omega
      · refine ⟨first, rest, (first :: rest).drop ((first :: rest).length - 20 - 1),
          rfl, ?_, List.drop_suffix _ _, ?_⟩
        · unfold BeforeModel.trimMessages
          rw [if_neg (by simp), if_neg (by simp only [BeforeModel.MAX_COUNT_MASSAGES]; omega),
            if_neg hp]
          rfl
        · rw [if_neg hp, List.length_drop]
          omega

/-- Witness for C8: a 19-message transcript is untouched and a
25-message transcript is trimmed. -/
theorem trim_messages_spec_witness :
    (BeforeModel.trimMessages (List.range 19) = none) ∧
    (∃ first rest kept, List.range 25 = first :: rest ∧
      BeforeModel.trimMessages (List.range 25) = some (first :: kept) ∧
      kept <:+ List.range 25 ∧
      kept.length = (if (List.range 25).length % 2 = 0 then 20 else 21)) :=
  ⟨(trim_messages_spec (List.range 19)).1 (by decide),
   (trim_messages_spec (List.range 25)).2 (by decide)⟩

open ZenaState in
/-- C9: the per-run accumulator reducer concatenates non-sentinel
updates (a single non-list value acting as a one-element list), resets
to the empty list on the sentinel, and the after-agent reset middleware
emits exactly the sentinel for all three accumulator fields. -/
theorem tools_reducer_append_or_reset {α : Type} (current : List α) (x : α)
    (xs : List α) :
    add_tools_or_reset (some current) (ToolsUpdate.list xs) = current ++ xs ∧
    add_tools_or_reset (some current) (ToolsUpdate.single x) = current ++ [x] ∧
    add_tools_or_reset (some current) ToolsUpdate.RESET = [] ∧
    add_tools_or_reset (none : Option (List α)) ToolsUpdate.RESET = [] ∧
    ResetData_aafter_agent.tools_args = ToolsUpdate.RESET ∧
    ResetData_aafter_agent.tools_name = ToolsUpdate.RESET ∧
    ResetData_aafter_agent.tools_result = ToolsUpdate.RESET :=
  ⟨rfl, rfl, rfl, rfl, rfl, rfl, rfl⟩
